import Mathlib

/-!
Shallow embedding of `src/reviewboard/scmtools/tarball.py`: the Tarball
SCM adapter (`TarballTool`) and its client (`TarballClient`).  Files on
disk, the tar library and the HTTP stack are modelled explicitly; every
operation is a pure function over that state.
-/

/-- Python `str.startswith(pre)`: the string begins with the given text. -/
def startswith (s pre : String) : Bool :=
  pre.data.isPrefixOf s.data

/-- `os.path.basename` for POSIX paths: the part after the last slash. -/
def basename (p : String) : String :=
  ((p.splitOn "/").getLast?).getD ""

/-- `os.path.join` for POSIX paths, two components. -/
def os_path_join (a b : String) : String :=
  if startswith b "/" then b
  else if a.endsWith "/" then a ++ b
  else a ++ "/" ++ b

/-- Python truthiness of an optional string (`if self.username:`):
`None` and the empty string are falsy. -/
def truthy (s : Option String) : Bool :=
  match s with
  | none => false
  | some v => !(v == "")

/-- Modelled from the spec: the pre-creation sentinel revision
(`PRE_CREATION`, imported from `reviewboard.scmtools.core`, which is not
under `src/`): "revision value meaning this file does not yet exist on
this side of a diff". -/
def PRE_CREATION : String := "PRE-CREATION"

/-- Modelled from the spec: the `HEAD` revision constant imported from
`reviewboard.scmtools.core` (not under `src/`), the default revision a
`FileNotFoundError` carries when none is given. -/
def HEAD : String := "HEAD"

/-- A named entry inside a tar archive: its stored path and raw bytes. -/
structure TarMember where
  name : String
  content : List Nat
deriving DecidableEq, Repr

/-- A tar archive: its list of members in archive order. -/
structure Archive where
  members : List TarMember
deriving DecidableEq, Repr

/-- `tarfile.TarFile.getmember(name)`: the member stored under `name`;
when a name occurs more than once the last occurrence wins (per the
`tarfile` documentation).  `none` stands for the `KeyError` raise. -/
def Archive.getmember (a : Archive) (name : String) : Option TarMember :=
  a.members.reverse.find? (fun m => m.name == name)

/-- Content of a file on disk: either bytes that parse as a tar archive
(so `tarfile.open` succeeds and yields that archive) or raw bytes that do
not (so `tarfile.open` raises).  A file just created by `open(p, "w")`
holds `raw []`. -/
inductive FileData where
  | tar (archive : Archive)
  | raw (content : List Nat)
deriving DecidableEq, Repr

/-- The local filesystem: an association of paths to file contents. -/
structure Fs where
  files : List (String × FileData)
deriving DecidableEq, Repr

/-- Read the file at a path (`none` when no file exists there). -/
def Fs.get? (fs : Fs) (p : String) : Option FileData :=
  fs.files.lookup p

/-- `os.path.exists`. -/
def Fs.path_exists (fs : Fs) (p : String) : Bool :=
  (fs.get? p).isSome

/-- Create or overwrite the file at a path (`open(p, "w")` + write). -/
def Fs.write (fs : Fs) (p : String) (d : FileData) : Fs :=
  { files := (p, d) :: fs.files.filter (fun kv => !(kv.1 == p)) }

/-- `os.remove`. -/
def Fs.remove (fs : Fs) (p : String) : Fs :=
  { files := fs.files.filter (fun kv => !(kv.1 == p)) }

/-- The Python exceptions this module raises or handles.
`fileNotFound` is `reviewboard.scmtools.errors.FileNotFoundError(path,
revision)` (revision defaults to `HEAD`); `scmError` is `SCMError(msg)`;
`reposNotFound` is `RepositoryNotFoundError`; `importErr` the bare
`ImportError` raised when the `tar` executable is missing;
`attributeErr` an `AttributeError`; `osError` an `IOError`/`OSError`
from the filesystem or the tar reader. -/
inductive PyErr where
  | fileNotFound (path : String) (revision : String)
  | scmError (msg : String)
  | reposNotFound
  | importErr
  | attributeErr (msg : String)
  | osError (msg : String)
deriving DecidableEq, Repr

/-- `urllib` `Request`: a URL plus the headers added to it. -/
structure URLRequest where
  url : String
  headers : List (String × String)
deriving DecidableEq, Repr

/-- `Request.add_header`. -/
def URLRequest.add_header (r : URLRequest) (k v : String) : URLRequest :=
  { r with headers := r.headers ++ [(k, v)] }

/-- What `urlopen(request).read()` comes back with: a body, an
`HTTPError` with a status code, or any other transport exception. -/
inductive HttpResponse where
  | ok (body : FileData)
  | httpError (code : Nat) (msg : String)
  | failure (msg : String)
deriving DecidableEq, Repr

/-- The network: the response each request would get. -/
def HttpWorld : Type := URLRequest → HttpResponse

/-- Outcome of a stateful operation: its Python result (or the exception
it raises), the filesystem afterwards, the log lines it emitted in
order, and the HTTP requests it actually issued (passed to `urlopen`). -/
structure Eff (α : Type) where
  result : Except PyErr α
  fs : Fs
  log : List String
  requests : List URLRequest

/-- `TarballClient.TARBALL_LOCAL_CACHE_DIR`. -/
def TARBALL_LOCAL_CACHE_DIR : String := "/tmp"

/-- The state a constructed `TarballClient` carries: the normalized
source path, the credentials stored by `SCMClient.__init__`, the
encoding, the local-site name and the resolved local cache path. -/
structure TarballClient where
  path : String
  username : Option String
  password : Option String
  encoding : String
  local_site_name : Option String
  tarball_local_path : String
deriving DecidableEq, Repr

/-- `TarballClient._normalize_tarball_url` (lines 221-225): keep a path
already carrying a `file://` or `http://` scheme, give any other path
the `file://` scheme. -/
def TarballClient._normalize_tarball_url (path : String) : String :=
  if startswith path "file://" || startswith path "http://" then path
  else "file://" ++ path

/-- `TarballClient.__init__` (lines 119-139).  `tar_in_path` is the
environment fact `is_exe_in_path("tar")`; when false construction raises
`ImportError`.  The normalized path is stored (via `SCMClient.__init__`,
modelled as plain field assignment per the spec: "State: source
reference (normalized), optional credentials, a resolved local cache
file path"); a `file://` path maps to its direct local path, anything
else to the cache directory plus the URL basename. -/
def TarballClient.init (tar_in_path : Bool) (path : String)
    (username password : Option String) (encoding : String)
    (local_site_name : Option String) : Except PyErr TarballClient :=
  let npath := TarballClient._normalize_tarball_url path
  if !tar_in_path then
    Except.error PyErr.importErr
  else
    let tarball_filename := basename npath
    let tarball_local_path :=
      if startswith npath "file://" then npath.replace "file://" ""
      else os_path_join TARBALL_LOCAL_CACHE_DIR tarball_filename
    Except.ok
      { path := npath, username := username, password := password,
        encoding := encoding, local_site_name := local_site_name,
        tarball_local_path := tarball_local_path }

/-- `TarballClient._cache_remote_tarball` (lines 178-209).  A no-op when
the cache file already exists.  Otherwise the request is built; if the
username is truthy the source evaluates `base64.b64encode`, but `base64`
is never imported in the module, so a `NameError` is raised and caught
by the final `except Exception` clause, becoming an `SCMError`.  With no
credentials, `open(self.tarball_local_path, "w")` first creates the
(empty) cache file, then `urlopen` runs: a body is written to the cache;
an `HTTPError` with code 404 is logged and becomes
`FileNotFoundError(self.path)` (revision defaulting to `HEAD`); any
other `HTTPError` or any other exception is logged and becomes an
`SCMError` with a descriptive message. -/
def TarballClient._cache_remote_tarball (c : TarballClient)
    (world : HttpWorld) (fs : Fs) : Eff Unit :=
  if fs.path_exists c.tarball_local_path then
    { result := Except.ok (), fs := fs,
      log := ["TarballClient: " ++ basename c.tarball_local_path ++
              " already cached, ignore it"],
      requests := [] }
  else if truthy c.username then
    { result := Except.error (PyErr.scmError
        ("Unexpected error fetching file from " ++ c.path ++
         ": name base64 is not defined")),
      fs := fs,
      log := ["Unexpected error fetching file from " ++ c.path ++
              ": name base64 is not defined"],
      requests := [] }
  else
    let fs1 := fs.write c.tarball_local_path (FileData.raw [])
    match world { url := c.path, headers := [] } with
    | HttpResponse.ok body =>
        { result := Except.ok (),
          fs := fs1.write c.tarball_local_path body,
          log := [], requests := [{ url := c.path, headers := [] }] }
    | HttpResponse.httpError code msg =>
        if code == 404 then
          { result := Except.error (PyErr.fileNotFound c.path HEAD),
            fs := fs1, log := ["404"],
            requests := [{ url := c.path, headers := [] }] }
        else
          { result := Except.error (PyErr.scmError
              ("HTTP error code " ++ toString code ++
               " when fetching file from " ++ c.path ++ ": " ++ msg)),
            fs := fs1,
            log := ["HTTP error code " ++ toString code ++
                    " when fetching file from " ++ c.path ++ ": " ++ msg],
            requests := [{ url := c.path, headers := [] }] }
    | HttpResponse.failure msg =>
        { result := Except.error (PyErr.scmError
            ("Unexpected error fetching file from " ++ c.path ++ ": " ++ msg)),
          fs := fs1,
          log := ["Unexpected error fetching file from " ++ c.path ++
                  ": " ++ msg],
          requests := [{ url := c.path, headers := [] }] }

/-- `TarballClient._is_valid_tarfile` (lines 211-219).  `tarfile.open`
on a tar file succeeds: true.  On a file that is not a tar archive it
raises; the bare `except` catches, the path is logged and removed:
false.  On a missing path `tarfile.open` also raises and is caught, but
`os.remove` then raises `OSError` itself, which propagates. -/
def TarballClient._is_valid_tarfile (c : TarballClient) (fs : Fs) : Eff Bool :=
  match fs.get? c.tarball_local_path with
  | some (FileData.tar _) =>
      { result := Except.ok true, fs := fs, log := [], requests := [] }
  | some (FileData.raw _) =>
      { result := Except.ok false, fs := fs.remove c.tarball_local_path,
        log := ["Tarball: Not a valid archive " ++ c.tarball_local_path],
        requests := [] }
  | none =>
      { result := Except.error (PyErr.osError c.tarball_local_path),
        fs := fs,
        log := ["Tarball: Not a valid archive " ++ c.tarball_local_path],
        requests := [] }

/-- `TarballClient.is_valid_repository`, lines 150-154: once the
optional cache-fill has run, the local archive must exist
(else logged, false) and open as a tar file. -/
def TarballClient.is_valid_repository_local (c : TarballClient) (fs : Fs)
    (log : List String) (reqs : List URLRequest) : Eff Bool :=
  if !(fs.path_exists c.tarball_local_path) then
    { result := Except.ok false, fs := fs,
      log := log ++ ["Tarball: Cannot find local archive " ++
                     c.tarball_local_path],
      requests := reqs }
  else
    let r := c._is_valid_tarfile fs
    { result := r.result, fs := r.fs, log := log ++ r.log,
      requests := reqs ++ r.requests }

/-- `TarballClient.is_valid_repository` (lines 141-154).  For an
`http://` source the cache-fill runs first and any exception from it is
logged and swallowed into a false verdict; then the local check runs. -/
def TarballClient.is_valid_repository (c : TarballClient)
    (world : HttpWorld) (fs : Fs) : Eff Bool :=
  if startswith c.path "http://" then
    let r := c._cache_remote_tarball world fs
    match r.result with
    | Except.error _ =>
        { result := Except.ok false, fs := r.fs,
          log := r.log ++ ["Tarball: Cannot cache remote tarball " ++ c.path],
          requests := r.requests }
    | Except.ok _ =>
        TarballClient.is_valid_repository_local c r.fs r.log r.requests
  else
    TarballClient.is_valid_repository_local c fs [] []

/-- Modelled from the spec: `get_file` calls `self._open_tarfile()`
(line 157) but that method is defined nowhere under `src/`; per the
spec, "Read member (`get_file`): opens the cached archive ... and looks
up the requested path as an archive member".  It opens the tar archive
at the resolved local cache path (setting `self.tarfile`), propagating
the open error when the file is missing or is not a tar archive. -/
def TarballClient._open_tarfile (c : TarballClient) (fs : Fs) :
    Except PyErr Archive :=
  match fs.get? c.tarball_local_path with
  | some (FileData.tar a) => Except.ok a
  | some (FileData.raw _) =>
      Except.error (PyErr.osError ("not a tar archive: " ++
                                   c.tarball_local_path))
  | none =>
      Except.error (PyErr.osError ("no such file: " ++
                                   c.tarball_local_path))

/-- `TarballClient.get_file` (lines 156-164).  Opens the archive; a
missing member (`KeyError` from `getmember`) is logged and becomes
`FileNotFoundError(path, revision)`.  When the member IS found, the
source returns `tarfile.extractfile(tarinfo)`: the bare name `tarfile`
is the imported module, and the module has no attribute `extractfile`
(it is a method of `TarFile` objects), so the success path raises
`AttributeError` instead of returning the member content.  The second
component is the log. -/
def TarballClient.get_file (c : TarballClient) (fs : Fs)
    (path revision : String) : Except PyErr (List Nat) × List String :=
  match c._open_tarfile fs with
  | Except.error e => (Except.error e, [])
  | Except.ok archive =>
      match archive.getmember path with
      | none =>
          (Except.error (PyErr.fileNotFound path revision),
           ["Tarball: Failed to find " ++ path ++ " from " ++ c.path])
      | some _ =>
          (Except.error (PyErr.attributeErr
             "module tarfile has no attribute extractfile"), [])

/-- `TarballClient.get_file_exists` (lines 166-176): try the read; true
on success, false on any exception (`except Exception`).  Total. -/
def TarballClient.get_file_exists (c : TarballClient) (fs : Fs)
    (path revision : String) : Bool :=
  match (c.get_file fs path revision).1 with
  | Except.ok _ => true
  | Except.error _ => false

/-- The adapter: it holds the client built by `TarballTool.__init__`
from the repository record. -/
structure TarballTool where
  client : TarballClient
deriving DecidableEq, Repr

/-- `TarballTool.get_file` (lines 58-62): empty content (`""`, here the
empty byte list) for the pre-creation revision, else the client read. -/
def TarballTool.get_file (t : TarballTool) (fs : Fs)
    (path revision : String) : Except PyErr (List Nat) :=
  if revision == PRE_CREATION then Except.ok []
  else (t.client.get_file fs path revision).1

/-- `TarballTool.file_exists` (lines 64-71): false for the pre-creation
revision, else the client probe.  The source also catches
`FileNotFoundError` and `InvalidRevisionFormatError` into false, but
`get_file_exists` never raises, so that clause is unreachable. -/
def TarballTool.file_exists (t : TarballTool) (fs : Fs)
    (path revision : String) : Bool :=
  if revision == PRE_CREATION then false
  else t.client.get_file_exists fs path revision

/-- `TarballTool.parse_diff_revision` (lines 73-80).  `moved`, `copied`
and the rest-arguments are accepted and ignored, as in the source. -/
def TarballTool.parse_diff_revision (file_str revision_str : String)
    (_moved _copied : Bool) : String × String :=
  if file_str == "/dev/null" then (file_str, PRE_CREATION)
  else (file_str, revision_str)

/-- `TarballTool.check_repository` (lines 91-113).  A client is built
from the path and local-site name only: the `username` and `password`
arguments are NOT passed to `TarballClient`.  The call
`super().check_repository(client.path, username, password,
local_site_name)` goes to `SCMTool.check_repository` in the platform
core (not under `src/`); the spec describes `check_repository` as a
connectivity/validity probe of the client only, so the base-class call
is modelled as a no-op.  An invalid repository raises
`RepositoryNotFoundError`. -/
def TarballTool.check_repository (tar_in_path : Bool) (path : String)
    (_username _password : Option String) (local_site_name : Option String)
    (world : HttpWorld) (fs : Fs) :
    Except PyErr Unit × Fs × List String × List URLRequest :=
  match TarballClient.init tar_in_path path none none "" local_site_name with
  | Except.error e => (Except.error e, fs, [], [])
  | Except.ok client =>
      let r := client.is_valid_repository world fs
      match r.result with
      | Except.ok true => (Except.ok (), r.fs, r.log, r.requests)
      | Except.ok false => (Except.error PyErr.reposNotFound, r.fs, r.log,
                            r.requests)
      | Except.error e => (Except.error e, r.fs, r.log, r.requests)

/-! Concrete instances used by the claim witnesses. -/

/-- An archive holding one member, `dir/file.txt`, with known bytes. -/
def sampleArchive : Archive :=
  { members := [{ name := "dir/file.txt", content := [104, 105] }] }

/-- A client for the local source `file:///r.tar`. -/
def sampleClient : TarballClient :=
  { path := "file:///r.tar", username := none, password := none,
    encoding := "", local_site_name := none, tarball_local_path := "/r.tar" }

/-- A filesystem where `/r.tar` is a valid tar archive. -/
def sampleFs : Fs := { files := [("/r.tar", FileData.tar sampleArchive)] }

/-- A valid tar archive with no members. -/
def emptyArchive : Archive := { members := [] }

/-- A filesystem where `/r.tar` is a valid but empty tar archive. -/
def emptyArchiveFs : Fs := { files := [("/r.tar", FileData.tar emptyArchive)] }

/-- A filesystem where `/r.tar` exists but is not a tar archive. -/
def corruptFs : Fs := { files := [("/r.tar", FileData.raw [1, 2, 3])] }

/-- A network where every request fails at transport level. -/
def anyWorld : HttpWorld := fun _ => HttpResponse.failure "unreachable"

/-- A client for the remote source `http://h/a.tar`. -/
def remoteClient : TarballClient :=
  { path := "http://h/a.tar", username := none, password := none,
    encoding := "", local_site_name := none,
    tarball_local_path := "/tmp/a.tar" }

/-- A network answering every request with HTTP 404. -/
def world404 : HttpWorld := fun _ => HttpResponse.httpError 404 "not found"

/-- The empty filesystem. -/
def emptyFs : Fs := { files := [] }

/-- A network where every request is refused at transport level. -/
def worldDown : HttpWorld := fun _ => HttpResponse.failure "connection refused"

/-! Helper lemmas. -/

theorem isPrefixOf_self_append (a b : List Char) :
    a.isPrefixOf (a ++ b) = true := by
  induction a with
  | nil => simp [List.isPrefixOf]
  | cons x xs ih => simp [List.isPrefixOf, ih]

theorem startswith_self_append (a b : String) : startswith (a ++ b) a = true := by
  unfold startswith
  rw [String.data_append]
  exact isPrefixOf_self_append a.data b.data

theorem Fs.get?_write_self (fs : Fs) (p : String) (d : FileData) :
    (fs.write p d).get? p = some d := by
  unfold Fs.write Fs.get?
  simp [List.lookup]

theorem Fs.path_exists_write_self (fs : Fs) (p : String) (d : FileData) :
    (fs.write p d).path_exists p = true := by
  unfold Fs.path_exists
  rw [Fs.get?_write_self]
  rfl

theorem Fs.get?_remove_self (fs : Fs) (p : String) :
    (fs.remove p).get? p = none := by
  unfold Fs.remove Fs.get?
  induction fs.files with
  | nil => rfl
  | cons kv rest ih =>
      by_cases h : kv.1 == p
      · simpa [List.filter, h] using ih
      · simpa [List.filter, h, List.lookup, BEq.comm (a := p)] using ih

/-- A cache-fill against an already-present cache file is a read-only
no-op that issues no request. -/
theorem cache_noop_of_cached (c : TarballClient) (world : HttpWorld) (fs : Fs)
    (h : fs.path_exists c.tarball_local_path = true) :
    (c._cache_remote_tarball world fs).result = Except.ok () ∧
    (c._cache_remote_tarball world fs).fs = fs ∧
    (c._cache_remote_tarball world fs).requests = [] := by
  unfold TarballClient._cache_remote_tarball
  simp [h]

/-- The local half of the validity check deletes a corrupt cache file
and reports false. -/
theorem valid_local_corrupt (c : TarballClient) (fs : Fs)
    (log : List String) (reqs : List URLRequest) (b : List Nat)
    (hcorrupt : fs.get? c.tarball_local_path = some (FileData.raw b)) :
    (TarballClient.is_valid_repository_local c fs log reqs).result =
      Except.ok false ∧
    (TarballClient.is_valid_repository_local c fs log reqs).fs =
      fs.remove c.tarball_local_path := by
  have hex : fs.path_exists c.tarball_local_path = true := by
    unfold Fs.path_exists
    rw [hcorrupt]
    rfl
  unfold TarballClient.is_valid_repository_local TarballClient._is_valid_tarfile
  rw [hcorrupt, hex]
  simp

/-- A cache-fill whose fetch does not come back with a body leaves an
empty file at the cache path and raises. -/
theorem cache_fetch_failure_state (c : TarballClient) (world : HttpWorld)
    (fs : Fs)
    (huncached : fs.path_exists c.tarball_local_path = false)
    (hanon : truthy c.username = false)
    (hfail : ∀ body, world { url := c.path, headers := [] } ≠
      HttpResponse.ok body) :
    (∃ e, (c._cache_remote_tarball world fs).result = Except.error e) ∧
    (c._cache_remote_tarball world fs).fs =
      fs.write c.tarball_local_path (FileData.raw []) := by
  unfold TarballClient._cache_remote_tarball
  rw [huncached, hanon]
  simp only [Bool.false_eq_true, if_false]
  cases hw : world { url := c.path, headers := [] } with
  | ok body => exact absurd hw (hfail body)
  | httpError code msg =>
      by_cases h404 : (code == 404) = true
      · simp only [h404, if_true]
        exact ⟨⟨_, rfl⟩, trivial⟩
      · simp only [Bool.not_eq_true] at h404
        simp only [h404, Bool.false_eq_true, if_false]
        exact ⟨⟨_, rfl⟩, trivial⟩
  | failure msg => exact ⟨⟨_, rfl⟩, rfl⟩

/-- With no truthy username, a cache-fill issues at most the one bare
request for the source URL. -/
theorem cache_requests_shape (c : TarballClient) (world : HttpWorld) (fs : Fs)
    (h : truthy c.username = false) :
    (c._cache_remote_tarball world fs).requests = [] ∨
    (c._cache_remote_tarball world fs).requests =
      [{ url := c.path, headers := [] }] := by
  unfold TarballClient._cache_remote_tarball
  cases hcache : fs.path_exists c.tarball_local_path with
  | true => left; rfl
  | false =>
      rw [h]
      simp only [Bool.false_eq_true, if_false]
      cases hw : world { url := c.path, headers := [] } with
      | ok body => right; rfl
      | httpError code msg =>
          by_cases h404 : (code == 404) = true
          · simp only [h404, if_true]
            right; trivial
          · simp only [Bool.not_eq_true] at h404
            simp only [h404, Bool.false_eq_true, if_false]
            right; trivial
      | failure msg => right; rfl

theorem is_valid_tarfile_requests (c : TarballClient) (fs : Fs) :
    (c._is_valid_tarfile fs).requests = [] := by
  unfold TarballClient._is_valid_tarfile
  cases h : fs.get? c.tarball_local_path with
  | none => rfl
  | some d => cases d <;> rfl

theorem valid_local_requests (c : TarballClient) (fs : Fs)
    (log : List String) (reqs : List URLRequest) :
    (TarballClient.is_valid_repository_local c fs log reqs).requests = reqs := by
  unfold TarballClient.is_valid_repository_local
  cases hex : fs.path_exists c.tarball_local_path with
  | false => rfl
  | true => simp [is_valid_tarfile_requests]

/-- With no truthy username, every request the validity check issues
carries no header at all. -/
theorem valid_repo_requests_anonymous (c : TarballClient) (world : HttpWorld)
    (fs : Fs) (h : truthy c.username = false) :
    ∀ req ∈ (c.is_valid_repository world fs).requests, req.headers = [] := by
  intro req hreq
  unfold TarballClient.is_valid_repository at hreq
  have hshape := cache_requests_shape c world fs h
  cases hhttp : startswith c.path "http://" with
  | false =>
      rw [hhttp] at hreq
      simp only [Bool.false_eq_true, if_false] at hreq
      rw [valid_local_requests] at hreq
      simp at hreq
  | true =>
      rw [hhttp] at hreq
      simp only [if_true] at hreq
      cases hr : (c._cache_remote_tarball world fs).result with
      | error e =>
          rw [hr] at hreq
          simp only at hreq
          rcases hshape with hs | hs <;> rw [hs] at hreq <;> simp at hreq
          rw [hreq]
      | ok u =>
          rw [hr] at hreq
          simp only at hreq
          rw [valid_local_requests] at hreq
          rcases hshape with hs | hs <;> rw [hs] at hreq <;> simp at hreq
          rw [hreq]

/-! The claims. -/

/-- C1: the claim says `TarballClient.get_file` returns the raw byte
content of a member stored at the requested path.  The code does not:
line 164 returns `tarfile.extractfile(tarinfo)` where `tarfile` is the
imported module, which has no attribute `extractfile`, so the success
path raises `AttributeError`.  Evaluated here at a concrete archive that
does contain the member `dir/file.txt` with bytes `[104, 105]`. -/
theorem C1_get_file_success_path_raises :
    sampleArchive.getmember "dir/file.txt" =
      some { name := "dir/file.txt", content := [104, 105] } ∧
    (sampleClient.get_file sampleFs "dir/file.txt" "HEAD").1 =
      Except.error (PyErr.attributeErr
        "module tarfile has no attribute extractfile") := by
  constructor <;> rfl

/-- C2: for every client, filesystem holding a valid tar archive at the
resolved cache path, and requested path the archive does not contain,
`TarballClient.get_file` raises exactly
`FileNotFoundError(path, revision)` — no other error. -/
theorem C2_missing_member_not_found (c : TarballClient) (fs : Fs) (a : Archive)
    (path revision : String)
    (hfs : fs.get? c.tarball_local_path = some (FileData.tar a))
    (hmem : a.getmember path = none) :
    (c.get_file fs path revision).1 =
      Except.error (PyErr.fileNotFound path revision) := by
  unfold TarballClient.get_file TarballClient._open_tarfile
  rw [hfs]
  simp [hmem]

/-- C2 witness: `get_file("missing.txt", "5")` against a valid empty
archive yields exactly `FileNotFoundError("missing.txt", "5")`. -/
theorem C2_missing_member_not_found_witness :
    (sampleClient.get_file emptyArchiveFs "missing.txt" "5").1 =
      Except.error (PyErr.fileNotFound "missing.txt" "5") :=
  C2_missing_member_not_found sampleClient emptyArchiveFs emptyArchive
    "missing.txt" "5" rfl rfl

/-- C3: `TarballClient.get_file_exists` is a total, never-throwing
predicate (its embedded type is `Bool`, not `Except`): it returns true
exactly when the underlying `get_file` call succeeds, and false whenever
`get_file` raises any exception whatsoever. -/
theorem C3_get_file_exists_total_predicate (c : TarballClient) (fs : Fs)
    (path revision : String) :
    (c.get_file_exists fs path revision = true ↔
      ∃ b, (c.get_file fs path revision).1 = Except.ok b) ∧
    (∀ e, (c.get_file fs path revision).1 = Except.error e →
      c.get_file_exists fs path revision = false) := by
  unfold TarballClient.get_file_exists
  constructor
  · cases h : (c.get_file fs path revision).1 with
    | ok b => simp [h]
    | error e => simp [h]
  · intro e h
    simp [h]

/-- C4: when `_cache_remote_tarball` fetches an uncached remote source,
an HTTP 404 response raises `FileNotFoundError` carrying the source URL
(and the default `HEAD` revision) with the `404` line logged; any other
HTTP error status, and any transport failure, raises a generic
`SCMError` whose descriptive message is also the logged line. -/
theorem C4_cache_fetch_errors (c : TarballClient) (world : HttpWorld) (fs : Fs)
    (huncached : fs.path_exists c.tarball_local_path = false)
    (hanon : truthy c.username = false) :
    (∀ msg, world { url := c.path, headers := [] } =
        HttpResponse.httpError 404 msg →
      (c._cache_remote_tarball world fs).result =
        Except.error (PyErr.fileNotFound c.path HEAD) ∧
      (c._cache_remote_tarball world fs).log = ["404"]) ∧
    (∀ code msg, world { url := c.path, headers := [] } =
        HttpResponse.httpError code msg → code ≠ 404 →
      ∃ m, (c._cache_remote_tarball world fs).result =
          Except.error (PyErr.scmError m) ∧
        (c._cache_remote_tarball world fs).log = [m]) ∧
    (∀ msg, world { url := c.path, headers := [] } = HttpResponse.failure msg →
      ∃ m, (c._cache_remote_tarball world fs).result =
          Except.error (PyErr.scmError m) ∧
        (c._cache_remote_tarball world fs).log = [m]) := by
  unfold TarballClient._cache_remote_tarball
  rw [huncached, hanon]
  simp only [Bool.false_eq_true, if_false]
  refine ⟨?_, ?_, ?_⟩
  · intro msg hw
    rw [hw]
    simp
  · intro code msg hw hne
    rw [hw]
    have h404 : (code == 404) = false := by
      simp [hne]
    simp only [h404, Bool.false_eq_true, if_false]
    exact ⟨_, rfl, rfl⟩
  · intro msg hw
    rw [hw]
    exact ⟨_, rfl, rfl⟩

/-- C4 witness: against a network answering 404, the uncached fetch for
`http://h/a.tar` raises `FileNotFoundError` carrying that URL, with the
`404` log line emitted. -/
theorem C4_cache_fetch_errors_witness :
    (remoteClient._cache_remote_tarball world404 emptyFs).result =
      Except.error (PyErr.fileNotFound "http://h/a.tar" HEAD) ∧
    (remoteClient._cache_remote_tarball world404 emptyFs).log = ["404"] :=
  (C4_cache_fetch_errors remoteClient world404 emptyFs rfl rfl).1 "not found" rfl

/-- C5: if a file exists at the client's resolved local cache path but
cannot be opened as a tar archive, `is_valid_repository` returns false
and that corrupt file is removed from disk as part of the call
(whatever the source scheme and the state of the network). -/
theorem C5_invalid_archive_removed (c : TarballClient) (world : HttpWorld)
    (fs : Fs) (b : List Nat)
    (hcorrupt : fs.get? c.tarball_local_path = some (FileData.raw b)) :
    (c.is_valid_repository world fs).result = Except.ok false ∧
    (c.is_valid_repository world fs).fs.path_exists c.tarball_local_path =
      false := by
  have hex : fs.path_exists c.tarball_local_path = true := by
    unfold Fs.path_exists
    rw [hcorrupt]
    rfl
  have hremoved : (fs.remove c.tarball_local_path).path_exists
      c.tarball_local_path = false := by
    unfold Fs.path_exists
    rw [Fs.get?_remove_self]
    rfl
  unfold TarballClient.is_valid_repository
  cases hhttp : startswith c.path "http://" with
  | false =>
      simp only [Bool.false_eq_true, if_false]
      have h := valid_local_corrupt c fs [] [] b hcorrupt
      rw [h.1, h.2]
      exact ⟨rfl, hremoved⟩
  | true =>
      simp only [if_true]
      obtain ⟨h1, h2, h3⟩ := cache_noop_of_cached c world fs hex
      rw [h1, h2]
      have h := valid_local_corrupt c fs
        (c._cache_remote_tarball world fs).log
        (c._cache_remote_tarball world fs).requests b hcorrupt
      rw [h.1, h.2]
      exact ⟨rfl, hremoved⟩

/-- C5 witness: with a non-archive file at `/r.tar`, the validity check
reports false and the file is gone afterwards. -/
theorem C5_invalid_archive_removed_witness :
    (sampleClient.is_valid_repository anyWorld corruptFs).result =
      Except.ok false ∧
    (sampleClient.is_valid_repository anyWorld corruptFs).fs.path_exists
      "/r.tar" = false :=
  C5_invalid_archive_removed sampleClient anyWorld corruptFs [1, 2, 3] rfl

/-- C6: for every adapter, filesystem and path, `TarballTool.get_file`
at the pre-creation revision returns empty content and
`TarballTool.file_exists` returns false; both results are moreover
identical across any two adapters and filesystems, so the client's
archive is never consulted. -/
theorem C6_pre_creation_short_circuit (t u : TarballTool) (fs gs : Fs)
    (path : String) :
    TarballTool.get_file t fs path PRE_CREATION = Except.ok [] ∧
    TarballTool.file_exists t fs path PRE_CREATION = false ∧
    TarballTool.get_file t fs path PRE_CREATION =
      TarballTool.get_file u gs path PRE_CREATION ∧
    TarballTool.file_exists t fs path PRE_CREATION =
      TarballTool.file_exists u gs path PRE_CREATION := by
  refine ⟨?_, ?_, ?_, ?_⟩ <;> simp [TarballTool.get_file, TarballTool.file_exists]

/-- C7: URL normalization is total (a Lean function) and idempotent:
every path already starting with `file://` or `http://` is returned
unchanged, every other path `p` becomes `"file://" ++ p`, and
normalizing twice equals normalizing once, for every input. -/
theorem C7_normalize_total_idempotent (p : String) :
    (startswith p "file://" = true ∨ startswith p "http://" = true →
      TarballClient._normalize_tarball_url p = p) ∧
    (startswith p "file://" = false → startswith p "http://" = false →
      TarballClient._normalize_tarball_url p = "file://" ++ p) ∧
    TarballClient._normalize_tarball_url
        (TarballClient._normalize_tarball_url p) =
      TarballClient._normalize_tarball_url p := by
  unfold TarballClient._normalize_tarball_url
  refine ⟨?_, ?_, ?_⟩
  · intro h
    rcases h with h | h <;> simp [h]
  · intro h1 h2
    simp [h1, h2]
  · by_cases h1 : startswith p "file://" = true
    · simp [h1]
    · by_cases h2 : startswith p "http://" = true
      · simp [h2]
      · simp only [Bool.not_eq_true] at h1 h2
        simp [h1, h2, startswith_self_append]

/-- C8: `TarballTool.parse_diff_revision` returns
`(file_str, PRE_CREATION)` when `file_str` is `/dev/null` and
`(file_str, revision_str)` unchanged otherwise, for every input
(including the ignored `moved`/`copied` flags). -/
theorem C8_parse_diff_revision_spec (file_str revision_str : String)
    (moved copied : Bool) :
    (file_str = "/dev/null" →
      TarballTool.parse_diff_revision file_str revision_str moved copied =
        (file_str, PRE_CREATION)) ∧
    (file_str ≠ "/dev/null" →
      TarballTool.parse_diff_revision file_str revision_str moved copied =
        (file_str, revision_str)) := by
  unfold TarballTool.parse_diff_revision
  constructor
  · intro h; simp [h]
  · intro h; simp [h]

/-- C9: for every uncached remote source whose HTTP fetch fails (the
response is an HTTP error or a transport failure), `_cache_remote_tarball`
raises, yet the filesystem afterwards holds an empty file at the cache
path — the cache file is opened for writing before the download is
attempted — and a second cache-fill on that state succeeds, issues no
request and leaves the filesystem unchanged. -/
theorem C9_failed_fetch_fills_cache (c : TarballClient) (world : HttpWorld)
    (fs : Fs)
    (huncached : fs.path_exists c.tarball_local_path = false)
    (hanon : truthy c.username = false)
    (hfail : ∀ body, world { url := c.path, headers := [] } ≠
      HttpResponse.ok body) :
    (∃ e, (c._cache_remote_tarball world fs).result = Except.error e) ∧
    (c._cache_remote_tarball world fs).fs.get? c.tarball_local_path =
      some (FileData.raw []) ∧
    (c._cache_remote_tarball world
        ((c._cache_remote_tarball world fs).fs)).result = Except.ok () ∧
    (c._cache_remote_tarball world
        ((c._cache_remote_tarball world fs).fs)).requests = [] ∧
    (c._cache_remote_tarball world
        ((c._cache_remote_tarball world fs).fs)).fs =
      (c._cache_remote_tarball world fs).fs := by
  obtain ⟨herr, hfs⟩ := cache_fetch_failure_state c world fs huncached hanon hfail
  have hpresent : (c._cache_remote_tarball world fs).fs.path_exists
      c.tarball_local_path = true := by
    rw [hfs]
    exact Fs.path_exists_write_self fs c.tarball_local_path (FileData.raw [])
  obtain ⟨h1, h2, h3⟩ :=
    cache_noop_of_cached c world ((c._cache_remote_tarball world fs).fs) hpresent
  refine ⟨herr, ?_, h1, h3, h2⟩
  rw [hfs]
  exact Fs.get?_write_self fs c.tarball_local_path (FileData.raw [])

/-- C9 witness: after a refused fetch of `http://h/a.tar` on an empty
filesystem, the error is raised, an empty cache file exists at
`/tmp/a.tar`, and the retry is a silent no-op. -/
theorem C9_failed_fetch_fills_cache_witness :
    (∃ e, (remoteClient._cache_remote_tarball worldDown emptyFs).result =
      Except.error e) ∧
    (remoteClient._cache_remote_tarball worldDown emptyFs).fs.get?
      "/tmp/a.tar" = some (FileData.raw []) ∧
    (remoteClient._cache_remote_tarball worldDown
        ((remoteClient._cache_remote_tarball worldDown emptyFs).fs)).result =
      Except.ok () ∧
    (remoteClient._cache_remote_tarball worldDown
        ((remoteClient._cache_remote_tarball worldDown emptyFs).fs)).requests =
      [] ∧
    (remoteClient._cache_remote_tarball worldDown
        ((remoteClient._cache_remote_tarball worldDown emptyFs).fs)).fs =
      (remoteClient._cache_remote_tarball worldDown emptyFs).fs :=
  C9_failed_fetch_fills_cache remoteClient worldDown emptyFs rfl rfl
    (fun _ h => HttpResponse.noConfusion h)

/-- C10: `TarballTool.check_repository` builds its client without the
supplied credentials: its entire outcome (result, filesystem, log,
issued requests) is identical for any two credential pairs, and every
HTTP request its validation issues carries no header at all — in
particular no basic-auth Authorization header. -/
theorem C10_check_repository_credential_independent (tar_in_path : Bool)
    (path : String) (u1 p1 u2 p2 : Option String)
    (local_site_name : Option String) (world : HttpWorld) (fs : Fs) :
    TarballTool.check_repository tar_in_path path u1 p1 local_site_name
        world fs =
      TarballTool.check_repository tar_in_path path u2 p2 local_site_name
        world fs ∧
    ∀ req ∈ (TarballTool.check_repository tar_in_path path u1 p1
        local_site_name world fs).2.2.2, req.headers = [] := by
  constructor
  · rfl
  · intro req hreq
    unfold TarballTool.check_repository at hreq
    cases hinit : TarballClient.init tar_in_path path none none ""
        local_site_name with
    | error e =>
        rw [hinit] at hreq
        simp at hreq
    | ok client =>
        have husername : client.username = none := by
          unfold TarballClient.init at hinit
          cases tar_in_path with
          | false => simp at hinit
          | true =>
              simp only [Bool.not_true, Bool.false_eq_true, if_false] at hinit
              cases hinit
              rfl
        rw [hinit] at hreq
        simp only at hreq
        have hreqs : ∀ r ∈ (client.is_valid_repository world fs).requests,
            r.headers = [] := by
          apply valid_repo_requests_anonymous
          rw [husername]
          rfl
        apply hreqs
        cases hr : (client.is_valid_repository world fs).result with
        | error e => rw [hr] at hreq; exact hreq
        | ok b =>
            cases b with
            | true => rw [hr] at hreq; exact hreq
            | false => rw [hr] at hreq; exact hreq
